import Mathlib

/-!
Verification of the booking conflict-resolution core of the fitconnect
trainer-booking application (backend/bookings).

The embedding models:
  * `Booking` rows (backend/bookings/models.py) with times as minutes from
    midnight, dates as day ordinals, datetimes as minutes since an epoch,
    and money amounts in integer cents;
  * the conflict detector `Booking.check_booking_conflict`;
  * the creation path `BookingCreateSerializer.validate` / `.create`
    (backend/bookings/serializers.py), with the database as a list of rows;
    concurrent creation transactions are analysed through an explicit
    interleaving of their locked-read and insert phases under
    READ COMMITTED visibility;
  * the lifecycle methods `confirm`, `cancel`, `mark_completed`,
    `mark_no_show`, the payment markers, and the guarded cancellation
    endpoint `BookingDetailView.destroy` (backend/bookings/views.py).
-/

namespace FitConnect

/-- Booking status choices (models.py `STATUS_CHOICES`). -/
inductive BStatus
  | pending
  | confirmed
  | cancelledByClient
  | cancelledByTrainer
  | completed
  | noShow
deriving DecidableEq

/-- Payment status choices (models.py `PAYMENT_STATUS_CHOICES`). -/
inductive PayStatus
  | unpaid
  | pendingPayment
  | paid
  | failed
  | refunded
deriving DecidableEq

/-- A `Booking` row.  `TimeField`s are minutes from midnight, `DateField`s
day ordinals, `DateTimeField`s minutes since an epoch, and the two
`DecimalField(decimal_places=2)` amounts are integer cents.  `total_price`
is `none` while the Python attribute is still unset (`None`). -/
structure Booking where
  id : Nat
  trainer : Nat
  client : Nat
  session_date : Nat
  start_time : Nat
  end_time : Nat
  duration_minutes : Nat
  location_address : String
  hourly_rate : Nat
  total_price : Option Nat
  status : BStatus
  payment_status : PayStatus
  client_notes : String
  trainer_notes : String
  cancellation_reason : String
  cancelled_at : Option Nat
  created_at : Nat
  updated_at : Nat
deriving DecidableEq

/-- Round `num / den` to the nearest integer with ties to even: the
`ROUND_HALF_EVEN` rounding that Python `Decimal.quantize` applies under the
default context. -/
def roundHalfEvenDiv (num den : Nat) : Nat :=
  let q := num / den
  let r := num % den
  if 2 * r < den then q
  else if den < 2 * r then q + 1
  else if q % 2 = 0 then q else q + 1

/-- `Booking.save` price computation (models.py lines 178-187):
`total_price = (hourly_rate / Decimal 60) * duration_minutes`, quantized to
`0.01`.  In cents this is `hourly_rate_cents * duration_minutes / 60`
rounded half-even to the nearest cent.  (The 28-significant-digit `Decimal`
context makes the intermediate division exact to far below a cent for every
representable `max_digits=6` rate, so the quantized result is the half-even
rounding of the exact quotient.) -/
def computeTotalPriceCents (rateCents duration : Nat) : Nat :=
  roundHalfEvenDiv (rateCents * duration) 60

/-- Python truthiness of an optional `Decimal` amount: `None` and `0.00`
are falsy (`if not self.total_price`). -/
def priceTruthy : Option Nat → Bool
  | none => false
  | some c => decide (c ≠ 0)

/-- `Booking.save` (models.py lines 178-187): auto-calculate `total_price`
when it is unset (falsy) and `hourly_rate` and `duration_minutes` are
truthy, then persist; `updated_at` has `auto_now=True` so every save
refreshes it to the current time. -/
def Booking.save (b : Booking) (now : Nat) : Booking :=
  let b1 :=
    if !priceTruthy b.total_price && b.hourly_rate != 0 && b.duration_minutes != 0 then
      { b with total_price := some (computeTotalPriceCents b.hourly_rate b.duration_minutes) }
    else b
  { b1 with updated_at := now }

/-- `status__in=['pending', 'confirmed']`: the statuses participating in
conflict checks. -/
def isActive (s : BStatus) : Bool :=
  decide (s = .pending ∨ s = .confirmed)

/-- The `bookings.exclude(id=exclude_booking_id)` step, guarded by Python
truthiness `if exclude_booking_id:` — `None` and `0` both skip the
exclusion. -/
def applyExclude (exclude_booking_id : Option Nat) (bs : List Booking) : List Booking :=
  match exclude_booking_id with
  | some i => if i ≠ 0 then bs.filter (fun b => decide (b.id ≠ i)) else bs
  | none => bs

/-- `Booking.check_booking_conflict` (models.py lines 111-151): filter the
table to this trainer and date with active status, drop the excluded id,
and return the first row whose half-open interval overlaps the request
(`start_time < booking.end_time and end_time > booking.start_time`). -/
def check_booking_conflict (db : List Booking)
    (trainer session_date start_time end_time : Nat)
    (exclude_booking_id : Option Nat) : Option Booking :=
  let bookings := db.filter fun b =>
    decide (b.trainer = trainer ∧ b.session_date = session_date) && isActive b.status
  let bookings := applyExclude exclude_booking_id bookings
  bookings.find? fun b => decide (start_time < b.end_time ∧ end_time > b.start_time)

/-- The part of `TrainerProfile` the booking core reads: id, rate in
cents, and the `published` flag. -/
structure TrainerProfile where
  id : Nat
  hourly_rate : Nat
  published : Bool
deriving DecidableEq

/-- The writable fields of `BookingCreateSerializer`. -/
structure BookingRequest where
  trainer : Nat
  session_date : Nat
  start_time : Nat
  end_time : Nat
  duration_minutes : Nat
  location_address : String
  client_notes : String
deriving DecidableEq

/-- Creation failures: the three rejections of
`BookingCreateSerializer.validate`, the field-level duration bound, and
the conflict rejection of `.create` carrying the conflicting booking's
time range (the spec's `ConflictError`). -/
inductive CreateError
  | pastDate
  | badTimes
  | badDuration
  | badAddress
  | trainerNotFound
  | conflict (conflictStart conflictEnd : Nat)
deriving DecidableEq

/-- DRF field validation on the creation path, run by `is_valid()` before
the serializer-level `validate`: `duration_minutes` carries
`MinValueValidator(15)` (models.py line 45), and `location_address` maps
to a required `CharField(max_length=255)` (models.py lines 50-53, no
`blank=True`), so a blank value or one longer than 255 characters is
rejected before any lock is taken. -/
def fieldValidation (req : BookingRequest) : Option CreateError :=
  if req.duration_minutes < 15 then some .badDuration
  else if req.location_address = "" then some .badAddress
  else if 255 < req.location_address.length then some .badAddress
  else none

/-- `BookingCreateSerializer.validate` (serializers.py lines 162-187):
reject a past `session_date`, reject `start_time >= end_time`, reject a
trainer that is not found with `published=True`; on success return the
trainer's `hourly_rate` (auto-populated into the data). -/
def BookingCreateSerializer.validate (trainers : List TrainerProfile) (today : Nat)
    (req : BookingRequest) : Except CreateError Nat :=
  if req.session_date < today then .error .pastDate
  else if req.end_time ≤ req.start_time then .error .badTimes
  else
    match trainers.find? (fun t => decide (t.id = req.trainer) && t.published) with
    | none => .error .trainerNotFound
    | some t => .ok t.hourly_rate

/-- `serializer.is_valid()` on the create path: field validators first,
then the `validate` method. -/
def run_validation (trainers : List TrainerProfile) (today : Nat)
    (req : BookingRequest) : Except CreateError Nat :=
  match fieldValidation req with
  | some e => .error e
  | none => BookingCreateSerializer.validate trainers today req

/-- `BookingCreateSerializer.create` (serializers.py lines 189-216) inside
`transaction.atomic()`: run the locked conflict check; on conflict raise
carrying the conflicting booking's start and end times and leave the
table untouched (the transaction aborts); otherwise insert the new row via
`Booking.objects.create`, which calls `Booking.save` (status and
payment_status take their model defaults `pending` / `unpaid`, and
`total_price` starts unset). -/
def BookingCreateSerializer.create (db : List Booking) (req : BookingRequest)
    (hourly_rate clientId newId now : Nat) :
    Except CreateError Booking × List Booking :=
  match check_booking_conflict db req.trainer req.session_date
      req.start_time req.end_time none with
  | some c => (.error (.conflict c.start_time c.end_time), db)
  | none =>
      let b : Booking :=
        { id := newId
          trainer := req.trainer
          client := clientId
          session_date := req.session_date
          start_time := req.start_time
          end_time := req.end_time
          duration_minutes := req.duration_minutes
          location_address := req.location_address
          hourly_rate := hourly_rate
          total_price := none
          status := .pending
          payment_status := .unpaid
          client_notes := req.client_notes
          trainer_notes := ""
          cancellation_reason := ""
          cancelled_at := none
          created_at := now
          updated_at := now }
      let b := b.save now
      (.ok b, db ++ [b])

/-- The full creation transaction: validation (fail fast, before any
lock), then the atomic conflict-check-and-insert.  On any error the
database is unchanged. -/
def create_booking (trainers : List TrainerProfile) (db : List Booking)
    (today now clientId newId : Nat) (req : BookingRequest) :
    Except CreateError Booking × List Booking :=
  match run_validation trainers today req with
  | .error e => (.error e, db)
  | .ok rate => BookingCreateSerializer.create db req rate clientId newId now

/-- `Booking.get_start_datetime`: the session start as an absolute instant
(minutes since the epoch). -/
def Booking.get_start_datetime (b : Booking) : Nat :=
  b.session_date * 1440 + b.start_time

/-- `Booking.get_end_datetime`: the session end as an absolute instant. -/
def Booking.get_end_datetime (b : Booking) : Nat :=
  b.session_date * 1440 + b.end_time

/-- `Booking.is_past`: `get_end_datetime() < timezone.now()`. -/
def Booking.is_past (b : Booking) (now : Nat) : Bool :=
  decide (b.get_end_datetime < now)

/-- `Booking.can_cancel` (models.py lines 211-219): status must be
`pending` or `confirmed` and the current time must be before
`get_start_datetime() - 24h`, i.e. `now + 24 * 60 < start`. -/
def Booking.can_cancel (b : Booking) (now : Nat) : Bool :=
  isActive b.status && decide (now + 24 * 60 < b.get_start_datetime)

/-- `Booking.confirm`: move `pending` to `confirmed` and save; any other
status is left untouched (no save). -/
def Booking.confirm (b : Booking) (now : Nat) : Booking :=
  if b.status = .pending then ({ b with status := .confirmed }).save now else b

/-- `Booking.cancel` (models.py lines 227-236): set the cancelled status
matching `cancelled_by` (any other actor string leaves the status alone),
then unconditionally stamp `cancellation_reason` and `cancelled_at` and
save. -/
def Booking.cancel (b : Booking) (cancelled_by reason : String) (now : Nat) : Booking :=
  let b1 :=
    if cancelled_by = "client" then { b with status := .cancelledByClient }
    else if cancelled_by = "trainer" then { b with status := .cancelledByTrainer }
    else b
  ({ b1 with cancellation_reason := reason, cancelled_at := some now }).save now

/-- `Booking.mark_completed`: only from `confirmed` once the session end
has passed. -/
def Booking.mark_completed (b : Booking) (now : Nat) : Booking :=
  if b.status = .confirmed ∧ b.is_past now then ({ b with status := .completed }).save now
  else b

/-- `Booking.mark_no_show`: only from `confirmed` once the session end has
passed. -/
def Booking.mark_no_show (b : Booking) (now : Nat) : Booking :=
  if b.status = .confirmed ∧ b.is_past now then ({ b with status := .noShow }).save now
  else b

/-- `Booking.mark_paid`. -/
def Booking.mark_paid (b : Booking) (now : Nat) : Booking :=
  ({ b with payment_status := .paid }).save now

/-- `Booking.mark_payment_failed`. -/
def Booking.mark_payment_failed (b : Booking) (now : Nat) : Booking :=
  ({ b with payment_status := .failed }).save now

/-- `Booking.mark_refunded`. -/
def Booking.mark_refunded (b : Booking) (now : Nat) : Booking :=
  ({ b with payment_status := .refunded }).save now

/-- The role of the caller of the cancellation endpoint. -/
inductive Role
  | client
  | trainer
deriving DecidableEq

/-- The spec's `CancellationWindowError`: the `ValidationError` that
`BookingDetailView.destroy` raises when `can_cancel()` is false. -/
inductive CancelError
  | window
deriving DecidableEq

/-- `BookingDetailView.destroy` (views.py lines 169-189): refuse when
`can_cancel()` is false, leaving the row untouched; otherwise cancel on
behalf of the caller's role.  Returns the row state after the request
together with the error, if any. -/
def BookingDetailView.destroy (b : Booking) (role : Role) (reason : String)
    (now : Nat) : Booking × Option CancelError :=
  if !b.can_cancel now then (b, some .window)
  else
    match role with
    | .client => (b.cancel "client" reason now, none)
    | .trainer => (b.cancel "trainer" reason now, none)

/-- The lifecycle operations the request layer exposes on an existing
booking: confirmation, the guarded cancellation endpoint, completion,
no-show, and the payment markers. -/
inductive LifecycleOp
  | confirmOp
  | cancelOp (role : Role) (reason : String)
  | completeOp
  | noShowOp
  | paidOp
  | paymentFailedOp
  | refundOp
deriving DecidableEq

/-- Apply one exposed lifecycle operation at time `now`. -/
def applyOp (op : LifecycleOp) (b : Booking) (now : Nat) : Booking :=
  match op with
  | .confirmOp => b.confirm now
  | .cancelOp role reason => (BookingDetailView.destroy b role reason now).1
  | .completeOp => b.mark_completed now
  | .noShowOp => b.mark_no_show now
  | .paidOp => b.mark_paid now
  | .paymentFailedOp => b.mark_payment_failed now
  | .refundOp => b.mark_refunded now

/-- Terminal statuses of the lifecycle. -/
def isTerminal (s : BStatus) : Bool :=
  decide (s = .cancelledByClient ∨ s = .cancelledByTrainer ∨ s = .completed ∨ s = .noShow)

/-- A row occupying the requested slot: same trainer and date, active
status, and overlapping half-open time interval. -/
def matchesSlot (trainer session_date s e : Nat) (b : Booking) : Bool :=
  (decide (b.trainer = trainer ∧ b.session_date = session_date) && isActive b.status) &&
    decide (s < b.end_time ∧ e > b.start_time)

/-- Discriminator for successful results. -/
def isOkRes : Except CreateError Booking → Bool
  | .ok _ => true
  | .error _ => false

/-- The second of two concurrent creation transactions in the interleaved
schedule check1, check2, insert1+commit1, insert2+commit2: its body is the
same validate / locked-read / insert sequence as `create_booking`, except
that its conflict check (serializers.py lines 197-202) runs against
`snapshot`, the set of committed rows visible to that statement under
READ COMMITTED — not against the table its own insert later lands on.
When the candidate set for the slot is empty, the `select_for_update` in
`check_booking_conflict` acquires no row locks, so nothing blocks this
schedule: the first transaction's uncommitted insert is invisible to the
second transaction's read. -/
def racedSecondCreate (trainers : List TrainerProfile)
    (snapshot db : List Booking) (today now clientId newId : Nat)
    (req : BookingRequest) : Except CreateError Booking × List Booking :=
  match run_validation trainers today req with
  | .error e => (.error e, db)
  | .ok rate =>
      match check_booking_conflict snapshot req.trainer req.session_date
          req.start_time req.end_time none with
      | some c => (.error (.conflict c.start_time c.end_time), db)
      | none =>
          let b : Booking :=
            { id := newId
              trainer := req.trainer
              client := clientId
              session_date := req.session_date
              start_time := req.start_time
              end_time := req.end_time
              duration_minutes := req.duration_minutes
              location_address := req.location_address
              hourly_rate := rate
              total_price := none
              status := .pending
              payment_status := .unpaid
              client_notes := req.client_notes
              trainer_notes := ""
              cancellation_reason := ""
              cancelled_at := none
              created_at := now
              updated_at := now }
          let b := b.save now
          (.ok b, db ++ [b])

/-- Two concurrent `create_booking` transactions under the schedule in
which both locked conflict reads run before either insert commits: the
first transaction runs in full against `db`; the second checks against
its READ COMMITTED snapshot of `db` but inserts into the table the first
one left behind.  With no pre-existing active row in the contested slot,
no row lock is ever held, so the database permits this schedule. -/
def racedCreatePair (trainers : List TrainerProfile) (db : List Booking)
    (today now clientId id1 id2 : Nat) (r1 r2 : BookingRequest) :
    (Except CreateError Booking × Except CreateError Booking) × List Booking :=
  let first := create_booking trainers db today now clientId id1 r1
  let second := racedSecondCreate trainers db first.2 today now clientId id2 r2
  ((first.1, second.1), second.2)

/-- The invariant tying the cancellation metadata to the status: a row
with `cancelled_at` set is in one of the two cancelled statuses.  It holds
of every row the system creates (creation leaves `cancelled_at` empty) and
is preserved by every exposed lifecycle operation. -/
def cancellationInv (b : Booking) : Prop :=
  b.cancelled_at ≠ none → (b.status = .cancelledByClient ∨ b.status = .cancelledByTrainer)

/-! ### Example rows used by the witness theorems -/

/-- A confirmed 10:00-11:00 booking for trainer 1 on day 10, priced at
75.00 for 60 minutes. -/
def bBase : Booking :=
  { id := 1
    trainer := 1
    client := 2
    session_date := 10
    start_time := 600
    end_time := 660
    duration_minutes := 60
    location_address := "gym"
    hourly_rate := 7500
    total_price := some 7500
    status := .confirmed
    payment_status := .unpaid
    client_notes := ""
    trainer_notes := ""
    cancellation_reason := ""
    cancelled_at := none
    created_at := 0
    updated_at := 0 }


/-! ### Helper lemmas about the conflict detector -/

theorem find?_filter_and {α : Type} (p q : α → Bool) (xs : List α) :
    (xs.filter p).find? q = xs.find? (fun a => p a && q a) := by
  induction xs with
  | nil => rfl
  | cons a as ih =>
    by_cases hp : p a
    · by_cases hq : q a <;> simp [List.filter_cons, hp, List.find?_cons, hq, ih]
    · simp [List.filter_cons, hp, List.find?_cons, ih]

theorem check_none_eq_find (db : List Booking) (tr d s e : Nat) :
    check_booking_conflict db tr d s e none = db.find? (matchesSlot tr d s e) := by
  simp only [check_booking_conflict, applyExclude]
  rw [find?_filter_and]
  rfl

theorem check_isSome_iff (db : List Booking) (tr d s e : Nat) :
    (check_booking_conflict db tr d s e none).isSome = true ↔
      ∃ b ∈ db, matchesSlot tr d s e b = true := by
  rw [check_none_eq_find]
  simp [List.find?_isSome]

theorem check_eq_none_iff (db : List Booking) (tr d s e : Nat) :
    check_booking_conflict db tr d s e none = none ↔
      ∀ b ∈ db, matchesSlot tr d s e b = false := by
  rw [check_none_eq_find]
  simp [List.find?_eq_none]

theorem check_some_matches {db : List Booking} {tr d s e : Nat} {c : Booking}
    (h : check_booking_conflict db tr d s e none = some c) :
    c ∈ db ∧ matchesSlot tr d s e c = true := by
  rw [check_none_eq_find] at h
  exact ⟨List.mem_of_find?_eq_some h, List.find?_some h⟩

theorem check_excl_eq_find (db : List Booking) (tr d s e i : Nat) (hi : i ≠ 0) :
    check_booking_conflict db tr d s e (some i) =
      db.find? fun b =>
        (decide (b.trainer = tr ∧ b.session_date = d) && isActive b.status) &&
          (decide (b.id ≠ i) && decide (s < b.end_time ∧ e > b.start_time)) := by
  simp only [check_booking_conflict, applyExclude, if_pos hi]
  rw [find?_filter_and, find?_filter_and]

/-- The rejection condition the spec states for `create_booking`
validation, written from the spec's words (section 4.2): past date, or
`start_time >= end_time`, or `duration_minutes` differing from
`end_time - start_time` by more than one minute, or no published trainer
with the requested id.  It is compared against the source-derived
`run_validation`. -/
def specValidationRejects (trainers : List TrainerProfile) (today : Nat)
    (req : BookingRequest) : Prop :=
  req.session_date < today ∨ req.end_time ≤ req.start_time ∨
    1 < ((req.end_time : Int) - (req.start_time : Int) - (req.duration_minutes : Int)).natAbs ∨
    ¬∃ t ∈ trainers, t.id = req.trainer ∧ t.published = true

/-- A published trainer, id 1, rate 75.00. -/
def exTrainer : TrainerProfile := { id := 1, hourly_rate := 7500, published := true }

/-- The trainer directory used in witnesses. -/
def exTrainers : List TrainerProfile := [exTrainer]

/-- A valid 10:00-11:00 request for trainer 1 on day 10. -/
def req60 : BookingRequest :=
  { trainer := 1
    session_date := 10
    start_time := 600
    end_time := 660
    duration_minutes := 60
    location_address := "gym"
    client_notes := "" }

/-- A 10:30-11:30 request for trainer 1 on day 10, overlapping `req60`. -/
def reqOverlap : BookingRequest :=
  { trainer := 1
    session_date := 10
    start_time := 630
    end_time := 690
    duration_minutes := 60
    location_address := "gym"
    client_notes := "" }

/-- A request whose `duration_minutes` disagrees with the 60-minute time
range by far more than one minute. -/
def reqBadDuration : BookingRequest :=
  { trainer := 1
    session_date := 10
    start_time := 600
    end_time := 660
    duration_minutes := 999
    location_address := "gym"
    client_notes := "" }

/-- The row `create_booking exTrainers [] 0 5 2 1 req60` produces. -/
def bW : Booking :=
  { id := 1
    trainer := 1
    client := 2
    session_date := 10
    start_time := 600
    end_time := 660
    duration_minutes := 60
    location_address := "gym"
    hourly_rate := 7500
    total_price := some 7500
    status := .pending
    payment_status := .unpaid
    client_notes := ""
    trainer_notes := ""
    cancellation_reason := ""
    cancelled_at := none
    created_at := 5
    updated_at := 5 }

/-! ### Frame lemmas about `Booking.save` -/

theorem save_status (b : Booking) (now : Nat) : (b.save now).status = b.status := by
  unfold Booking.save
  split <;> rfl

theorem save_payment_status (b : Booking) (now : Nat) :
    (b.save now).payment_status = b.payment_status := by
  unfold Booking.save
  split <;> rfl

theorem save_cancel_fields (b : Booking) (now : Nat) :
    (b.save now).cancellation_reason = b.cancellation_reason ∧
      (b.save now).cancelled_at = b.cancelled_at := by
  unfold Booking.save
  split <;> exact ⟨rfl, rfl⟩

theorem save_core_fields (b : Booking) (now : Nat) :
    (b.save now).id = b.id ∧ (b.save now).trainer = b.trainer ∧
      (b.save now).client = b.client ∧ (b.save now).session_date = b.session_date ∧
      (b.save now).start_time = b.start_time ∧ (b.save now).end_time = b.end_time ∧
      (b.save now).duration_minutes = b.duration_minutes ∧
      (b.save now).location_address = b.location_address ∧
      (b.save now).hourly_rate = b.hourly_rate ∧
      (b.save now).client_notes = b.client_notes ∧
      (b.save now).trainer_notes = b.trainer_notes ∧
      (b.save now).created_at = b.created_at ∧ (b.save now).updated_at = now := by
  unfold Booking.save
  split <;> exact ⟨rfl, rfl, rfl, rfl, rfl, rfl, rfl, rfl, rfl, rfl, rfl, rfl, rfl⟩

theorem save_total_price (b : Booking) (now : Nat) :
    (b.save now).total_price =
      if (!priceTruthy b.total_price && b.hourly_rate != 0 && b.duration_minutes != 0) = true
      then some (computeTotalPriceCents b.hourly_rate b.duration_minutes)
      else b.total_price := by
  unfold Booking.save
  split <;> rfl

/-- A `total_price` that was computed by `Booking.save` from the row's own
`hourly_rate` and `duration_minutes` is left unchanged by every later
save: either it is truthy and the recomputation branch is skipped, or it
is `0.00` and the branch recomputes the very same value. -/
theorem save_total_price_stable (b : Booking) (now : Nat)
    (hp : b.total_price = some (computeTotalPriceCents b.hourly_rate b.duration_minutes)) :
    (b.save now).total_price = b.total_price := by
  rw [save_total_price]
  split
  · exact hp.symm
  · rfl

theorem can_cancel_iff (b : Booking) (now : Nat) :
    b.can_cancel now = true ↔
      ((b.status = .pending ∨ b.status = .confirmed) ∧
        now + 24 * 60 < b.get_start_datetime) := by
  simp [Booking.can_cancel, isActive, Bool.and_eq_true]

/-! ### The claims -/

/-- C2: `check_booking_conflict` reports a conflict iff some booking of
the same trainer on the same date with status `pending` or `confirmed`,
and an id different from `exclude_booking_id` when one is given, has a
half-open interval overlapping the request (`start < e` and `end > s`);
consequently rows that only share a boundary instant with the request
never conflict, and rows whose status is cancelled, completed or no-show
never conflict even at the exact same time.  The hypothesis records that
database ids are positive (Django autoincrement primary keys start at 1),
so a given `exclude_booking_id` is a real id and passes the Python
truthiness guard. -/
theorem C2_find_conflict_iff (db : List Booking) (tr d s e : Nat)
    (excl : Option Nat) (hx : ∀ i, excl = some i → 0 < i) :
    ((check_booking_conflict db tr d s e excl).isSome = true ↔
      ∃ b ∈ db, b.trainer = tr ∧ b.session_date = d ∧
        (b.status = .pending ∨ b.status = .confirmed) ∧
        (∀ i, excl = some i → b.id ≠ i) ∧
        s < b.end_time ∧ e > b.start_time)
    ∧ ((∀ b ∈ db, b.end_time = s ∨ b.start_time = e) →
        check_booking_conflict db tr d s e excl = none)
    ∧ ((∀ b ∈ db, ¬(b.status = .pending ∨ b.status = .confirmed)) →
        check_booking_conflict db tr d s e excl = none) := by
  cases excl with
  | none =>
      refine ⟨?_, ?_, ?_⟩
      · rw [check_isSome_iff]
        simp only [matchesSlot, isActive, Bool.and_eq_true, decide_eq_true_eq]
        constructor
        · rintro ⟨b, hb, ⟨⟨h1, h2⟩, h3⟩, h4, h5⟩
          refine ⟨b, hb, h1, h2, h3, ?_, h4, h5⟩
          intro i hi
          simp at hi
        · rintro ⟨b, hb, h1, h2, h3, -, h4, h5⟩
          exact ⟨b, hb, ⟨⟨h1, h2⟩, h3⟩, h4, h5⟩
      · intro hadj
        rw [check_eq_none_iff]
        intro b hb
        rcases hadj b hb with h | h <;>
          simp [matchesSlot, h, Nat.lt_irrefl]
      · intro hinact
        rw [check_eq_none_iff]
        intro b hb
        have := hinact b hb
        simp only [matchesSlot, isActive]
        simp [this]
  | some i =>
      have hi : i ≠ 0 := Nat.pos_iff_ne_zero.mp (hx i rfl)
      refine ⟨?_, ?_, ?_⟩
      · rw [show (check_booking_conflict db tr d s e (some i)).isSome =
            (db.find? fun b =>
              (decide (b.trainer = tr ∧ b.session_date = d) && isActive b.status) &&
                (decide (b.id ≠ i) &&
                  decide (s < b.end_time ∧ e > b.start_time))).isSome from by
            rw [check_excl_eq_find db tr d s e i hi]]
        simp only [List.find?_isSome, isActive, Bool.and_eq_true, decide_eq_true_eq]
        constructor
        · rintro ⟨b, hb, ⟨⟨h1, h2⟩, h3⟩, h6, h4, h5⟩
          refine ⟨b, hb, h1, h2, h3, ?_, h4, h5⟩
          intro j hj
          cases hj
          exact h6
        · rintro ⟨b, hb, h1, h2, h3, h6, h4, h5⟩
          exact ⟨b, hb, ⟨⟨h1, h2⟩, h3⟩, h6 i rfl, h4, h5⟩
      · intro hadj
        rw [check_excl_eq_find db tr d s e i hi]
        rw [List.find?_eq_none]
        intro b hb
        rcases hadj b hb with h | h <;>
          simp [h, Nat.lt_irrefl]
      · intro hinact
        rw [check_excl_eq_find db tr d s e i hi]
        rw [List.find?_eq_none]
        intro b hb
        have := hinact b hb
        simp only [isActive]
        simp [this]

/-- Witness for C2: against a table holding only the confirmed
10:00-11:00 booking, a 10:30-11:30 request with `exclude_booking_id=5`
does find a conflict. -/
theorem C2_find_conflict_iff_witness :
    (check_booking_conflict [bBase] 1 10 630 690 (some 5)).isSome = true := by
  refine (C2_find_conflict_iff [bBase] 1 10 630 690 (some 5) ?_).1.mpr ?_
  · intro i hi
    injection hi with h
    omega
  · refine ⟨bBase, by simp, by decide, by decide, by decide, ?_, by decide, by decide⟩
    intro i hi
    injection hi with h
    subst h
    decide

/-- C6: the cancellation endpoint succeeds exactly when the booking is
still `pending` or `confirmed` and the current time is more than 24 hours
before the session start; otherwise it fails with the cancellation-window
error and the booking row is left unchanged. -/
theorem C6_cancellation_window (b : Booking) (role : Role) (reason : String) (now : Nat) :
    ((BookingDetailView.destroy b role reason now).2 = none ↔
      ((b.status = .pending ∨ b.status = .confirmed) ∧
        now + 24 * 60 < b.get_start_datetime))
    ∧ (¬((b.status = .pending ∨ b.status = .confirmed) ∧
          now + 24 * 60 < b.get_start_datetime) →
        BookingDetailView.destroy b role reason now = (b, some .window)) := by
  by_cases h : b.can_cancel now = true
  · have hcond := (can_cancel_iff b now).mp h
    refine ⟨?_, fun hn => absurd hcond hn⟩
    simp only [BookingDetailView.destroy, h]
    cases role <;> simp [hcond]
  · have hb : b.can_cancel now = false := by
      simpa [Bool.not_eq_true] using h
    have hcond : ¬((b.status = .pending ∨ b.status = .confirmed) ∧
        now + 24 * 60 < b.get_start_datetime) :=
      fun hc => h ((can_cancel_iff b now).mpr hc)
    refine ⟨?_, fun _ => ?_⟩ <;> simp [BookingDetailView.destroy, hb, hcond]

/-- Witness for C6: at `now = 0`, cancelling the confirmed day-10
10:00-11:00 booking is outside the 24-hour window, so the endpoint
accepts; applying the theorem to a copy whose session starts within 24
hours shows the rejection leaves the row unchanged. -/
theorem C6_cancellation_window_witness :
    BookingDetailView.destroy { bBase with session_date := 0 } Role.client "late" 0 =
      ({ bBase with session_date := 0 }, some .window) :=
  (C6_cancellation_window { bBase with session_date := 0 } Role.client "late" 0).2
    (by decide)

/-- C7: `confirm` moves a booking to `confirmed` exactly from `pending`;
`mark_completed` and `mark_no_show` move it to `completed` / `no_show`
exactly from `confirmed` once the session end time has passed; every other
invocation leaves the status unchanged, and no exposed lifecycle operation
moves a booking out of a terminal status. -/
theorem C7_lifecycle_guards (b : Booking) (now : Nat) :
    ((b.confirm now).status = if b.status = .pending then .confirmed else b.status)
    ∧ ((b.mark_completed now).status =
        if b.status = .confirmed ∧ b.is_past now = true then .completed else b.status)
    ∧ ((b.mark_no_show now).status =
        if b.status = .confirmed ∧ b.is_past now = true then .noShow else b.status)
    ∧ (∀ op : LifecycleOp, isTerminal b.status = true →
        (applyOp op b now).status = b.status) := by
  refine ⟨?_, ?_, ?_, ?_⟩
  · unfold Booking.confirm
    split
    · rw [save_status]
    · rfl
  · unfold Booking.mark_completed
    split
    · rw [save_status]
    · rfl
  · unfold Booking.mark_no_show
    split
    · rw [save_status]
    · rfl
  · intro op hterm
    have h1 : b.status ≠ .pending := by
      intro h
      rw [h] at hterm
      simp [isTerminal] at hterm
    have h2 : b.status ≠ .confirmed := by
      intro h
      rw [h] at hterm
      simp [isTerminal] at hterm
    have hact : isActive b.status = false := by
      simp [isActive, h1, h2]
    cases op with
    | confirmOp => simp [applyOp, Booking.confirm, h1]
    | cancelOp role reason =>
        have : b.can_cancel now = false := by
          simp [Booking.can_cancel, hact]
        simp [applyOp, BookingDetailView.destroy, this]
    | completeOp => simp [applyOp, Booking.mark_completed, h2]
    | noShowOp => simp [applyOp, Booking.mark_no_show, h2]
    | paidOp => simp [applyOp, Booking.mark_paid, save_status]
    | paymentFailedOp => simp [applyOp, Booking.mark_payment_failed, save_status]
    | refundOp => simp [applyOp, Booking.mark_refunded, save_status]

/-- Witness for C7: confirming an already-completed booking has no
effect. -/
theorem C7_lifecycle_guards_witness :
    (applyOp LifecycleOp.confirmOp { bBase with status := .completed } 0).status =
      ({ bBase with status := .completed } : Booking).status :=
  (C7_lifecycle_guards { bBase with status := .completed } 0).2.2.2
    LifecycleOp.confirmOp (by decide)

/-- C10: calling the model-level `cancel` with a `cancelled_by` value
other than `"client"` or `"trainer"` leaves the status alone, yet still
overwrites `cancellation_reason`, sets `cancelled_at` to the current time,
and refreshes `updated_at`; every other field is untouched.  The
`total_price` hypothesis states that the row's price was computed at
creation by `Booking.save` from its own rate and duration — true of every
row the system creates — which keeps the save inside `cancel` from
recomputing it. -/
theorem C10_cancel_unknown_actor (b : Booking) (who reason : String) (now : Nat)
    (h1 : who ≠ "client") (h2 : who ≠ "trainer")
    (hp : b.total_price = some (computeTotalPriceCents b.hourly_rate b.duration_minutes)) :
    (b.cancel who reason now).status = b.status ∧
    (b.cancel who reason now).cancellation_reason = reason ∧
    (b.cancel who reason now).cancelled_at = some now ∧
    (b.cancel who reason now).updated_at = now ∧
    (b.cancel who reason now).id = b.id ∧
    (b.cancel who reason now).trainer = b.trainer ∧
    (b.cancel who reason now).client = b.client ∧
    (b.cancel who reason now).session_date = b.session_date ∧
    (b.cancel who reason now).start_time = b.start_time ∧
    (b.cancel who reason now).end_time = b.end_time ∧
    (b.cancel who reason now).duration_minutes = b.duration_minutes ∧
    (b.cancel who reason now).location_address = b.location_address ∧
    (b.cancel who reason now).hourly_rate = b.hourly_rate ∧
    (b.cancel who reason now).total_price = b.total_price ∧
    (b.cancel who reason now).payment_status = b.payment_status ∧
    (b.cancel who reason now).client_notes = b.client_notes ∧
    (b.cancel who reason now).trainer_notes = b.trainer_notes ∧
    (b.cancel who reason now).created_at = b.created_at := by
  unfold Booking.cancel
  rw [if_neg h1, if_neg h2]
  have hstable := save_total_price_stable
    { b with cancellation_reason := reason, cancelled_at := some now } now (by exact hp)
  refine ⟨save_status _ _, ?_, ?_, ?_, ?_, ?_, ?_, ?_, ?_, ?_, ?_, ?_, ?_, ?_, ?_, ?_, ?_, ?_⟩
  · exact (save_cancel_fields _ _).1
  · exact (save_cancel_fields _ _).2
  · exact (save_core_fields _ _).2.2.2.2.2.2.2.2.2.2.2.2
  · exact (save_core_fields _ _).1
  · exact (save_core_fields _ _).2.1
  · exact (save_core_fields _ _).2.2.1
  · exact (save_core_fields _ _).2.2.2.1
  · exact (save_core_fields _ _).2.2.2.2.1
  · exact (save_core_fields _ _).2.2.2.2.2.1
  · exact (save_core_fields _ _).2.2.2.2.2.2.1
  · exact (save_core_fields _ _).2.2.2.2.2.2.2.1
  · exact (save_core_fields _ _).2.2.2.2.2.2.2.2.1
  · exact hstable
  · exact save_payment_status _ _
  · exact (save_core_fields _ _).2.2.2.2.2.2.2.2.2.1
  · exact (save_core_fields _ _).2.2.2.2.2.2.2.2.2.2.1
  · exact (save_core_fields _ _).2.2.2.2.2.2.2.2.2.2.2.1

/-- Witness for C10: cancelling on behalf of `"admin"` leaves the
confirmed status in place while stamping reason and timestamp. -/
theorem C10_cancel_unknown_actor_witness :
    (bBase.cancel "admin" "ops" 50).status = bBase.status ∧
      (bBase.cancel "admin" "ops" 50).cancellation_reason = "ops" ∧
      (bBase.cancel "admin" "ops" 50).cancelled_at = some 50 := by
  have h := C10_cancel_unknown_actor bBase "admin" "ops" 50
    (by decide) (by decide) (by decide)
  exact ⟨h.1, h.2.1, h.2.2.1⟩

theorem create_ok_inv {trainers : List TrainerProfile} {db : List Booking}
    {today now clientId newId : Nat} {req : BookingRequest} {bc : Booking}
    {db2 : List Booking}
    (h : create_booking trainers db today now clientId newId req = (.ok bc, db2)) :
    ∃ rate, run_validation trainers today req = .ok rate ∧
      check_booking_conflict db req.trainer req.session_date
        req.start_time req.end_time none = none ∧
      bc = (Booking.mk newId req.trainer clientId req.session_date req.start_time
        req.end_time req.duration_minutes req.location_address rate none .pending
        .unpaid req.client_notes "" "" none now now).save now ∧
      db2 = db ++ [bc] := by
  unfold create_booking at h
  cases hv : run_validation trainers today req with
  | error e => rw [hv] at h; simp at h
  | ok rate =>
      rw [hv] at h
      unfold BookingCreateSerializer.create at h
      cases hc : check_booking_conflict db req.trainer req.session_date
          req.start_time req.end_time none with
      | some c => rw [hc] at h; simp at h
      | none =>
          rw [hc] at h
          simp only [Prod.mk.injEq, Except.ok.injEq] at h
          exact ⟨rate, rfl, rfl, h.1.symm, by rw [h.2.symm, h.1]⟩

theorem run_validation_ok_duration {trainers : List TrainerProfile} {today : Nat}
    {req : BookingRequest} {rate : Nat}
    (h : run_validation trainers today req = .ok rate) : 15 ≤ req.duration_minutes := by
  unfold run_validation fieldValidation at h
  by_cases hd : req.duration_minutes < 15
  · rw [if_pos hd] at h; simp at h
  · omega

theorem cancel_client_fields (b : Booking) (reason : String) (now : Nat) :
    (b.cancel "client" reason now).status = .cancelledByClient ∧
      (b.cancel "client" reason now).cancellation_reason = reason ∧
      (b.cancel "client" reason now).cancelled_at = some now := by
  unfold Booking.cancel
  rw [if_pos rfl]
  exact ⟨save_status _ _, (save_cancel_fields _ _).1, (save_cancel_fields _ _).2⟩

theorem cancel_trainer_fields (b : Booking) (reason : String) (now : Nat) :
    (b.cancel "trainer" reason now).status = .cancelledByTrainer ∧
      (b.cancel "trainer" reason now).cancellation_reason = reason ∧
      (b.cancel "trainer" reason now).cancelled_at = some now := by
  unfold Booking.cancel
  rw [if_neg (by decide), if_pos rfl]
  exact ⟨save_status _ _, (save_cancel_fields _ _).1, (save_cancel_fields _ _).2⟩

theorem destroy_of_can_cancel (b : Booking) (now : Nat)
    (h : b.can_cancel now = true) (role : Role) (reason : String) :
    BookingDetailView.destroy b role reason now =
      (match role with
        | Role.client => (b.cancel "client" reason now, none)
        | Role.trainer => (b.cancel "trainer" reason now, none)) := by
  unfold BookingDetailView.destroy
  rw [h]
  rfl

theorem destroy_of_window (b : Booking) (now : Nat)
    (h : b.can_cancel now = false) (role : Role) (reason : String) :
    BookingDetailView.destroy b role reason now = (b, some CancelError.window) := by
  unfold BookingDetailView.destroy
  rw [h]
  rfl

/-- C8: the cancellation endpoint records the cancelled status,
`cancellation_reason` and `cancelled_at` in one atomic step, and the two
metadata fields are write-once: on any row satisfying the system's
invariant (`cancelled_at` set only on cancelled rows) whose `cancelled_at`
is already set, every exposed lifecycle operation leaves both fields
untouched; the invariant itself is preserved by every operation and holds
of every row `create_booking` produces. -/
theorem C8_cancellation_write_once (b : Booking) (role : Role) (reason : String)
    (now : Nat) (op : LifecycleOp) (t : Nat) :
    ((BookingDetailView.destroy b role reason now).2 = none →
      ((BookingDetailView.destroy b role reason now).1.status =
          (match role with
            | Role.client => BStatus.cancelledByClient
            | Role.trainer => BStatus.cancelledByTrainer) ∧
        (BookingDetailView.destroy b role reason now).1.cancellation_reason = reason ∧
        (BookingDetailView.destroy b role reason now).1.cancelled_at = some now))
    ∧ (cancellationInv b → b.cancelled_at = some t →
        (applyOp op b now).cancellation_reason = b.cancellation_reason ∧
        (applyOp op b now).cancelled_at = b.cancelled_at)
    ∧ (cancellationInv b → cancellationInv (applyOp op b now))
    ∧ (∀ (trainers : List TrainerProfile) (db : List Booking)
        (today clientId newId : Nat) (req : BookingRequest) (bc : Booking)
        (db2 : List Booking),
        create_booking trainers db today now clientId newId req = (.ok bc, db2) →
        bc.cancelled_at = none ∧ bc.cancellation_reason = "") := by
  refine ⟨?_, ?_, ?_, ?_⟩
  · intro hok
    by_cases hcc : b.can_cancel now = true
    · rw [destroy_of_can_cancel b now hcc role reason]
      cases role with
      | client => exact cancel_client_fields b reason now
      | trainer => exact cancel_trainer_fields b reason now
    · have hf : b.can_cancel now = false := by
        simpa [Bool.not_eq_true] using hcc
      rw [destroy_of_window b now hf role reason] at hok
      simp at hok
  · intro hinv hat
    have hstat := hinv (by rw [hat]; exact Option.some_ne_none t)
    have h1 : b.status ≠ .pending := by
      rcases hstat with hs | hs <;> rw [hs] <;> decide
    have h2 : b.status ≠ .confirmed := by
      rcases hstat with hs | hs <;> rw [hs] <;> decide
    have hact : isActive b.status = false := by simp [isActive, h1, h2]
    have hcc : b.can_cancel now = false := by simp [Booking.can_cancel, hact]
    cases op with
    | confirmOp => simp [applyOp, Booking.confirm, h1]
    | cancelOp role2 reason2 =>
        show ((BookingDetailView.destroy b role2 reason2 now).1.cancellation_reason =
            b.cancellation_reason ∧
          (BookingDetailView.destroy b role2 reason2 now).1.cancelled_at = b.cancelled_at)
        rw [destroy_of_window b now hcc role2 reason2]
        exact ⟨rfl, rfl⟩
    | completeOp => simp [applyOp, Booking.mark_completed, h2]
    | noShowOp => simp [applyOp, Booking.mark_no_show, h2]
    | paidOp =>
        exact ⟨(save_cancel_fields _ _).1, (save_cancel_fields _ _).2⟩
    | paymentFailedOp =>
        exact ⟨(save_cancel_fields _ _).1, (save_cancel_fields _ _).2⟩
    | refundOp =>
        exact ⟨(save_cancel_fields _ _).1, (save_cancel_fields _ _).2⟩
  · intro hinv
    cases op with
    | confirmOp =>
        show cancellationInv (b.confirm now)
        unfold Booking.confirm
        split <;> rename_i hp
        · intro hne
          rw [(save_cancel_fields _ _).2] at hne
          exact absurd (hinv hne) (by rw [hp]; rintro (hc | hc) <;> cases hc)
        · exact hinv
    | cancelOp role2 reason2 =>
        show cancellationInv (BookingDetailView.destroy b role2 reason2 now).1
        by_cases hcc : b.can_cancel now = true
        · rw [destroy_of_can_cancel b now hcc role2 reason2]
          cases role2 with
          | client => exact fun _ => Or.inl (cancel_client_fields b reason2 now).1
          | trainer => exact fun _ => Or.inr (cancel_trainer_fields b reason2 now).1
        · have hf : b.can_cancel now = false := by
            simpa [Bool.not_eq_true] using hcc
          rw [destroy_of_window b now hf role2 reason2]
          exact hinv
    | completeOp =>
        show cancellationInv (b.mark_completed now)
        unfold Booking.mark_completed
        split <;> rename_i hp
        · intro hne
          rw [(save_cancel_fields _ _).2] at hne
          exact absurd (hinv hne) (by rw [hp.1]; rintro (hc | hc) <;> cases hc)
        · exact hinv
    | noShowOp =>
        show cancellationInv (b.mark_no_show now)
        unfold Booking.mark_no_show
        split <;> rename_i hp
        · intro hne
          rw [(save_cancel_fields _ _).2] at hne
          exact absurd (hinv hne) (by rw [hp.1]; rintro (hc | hc) <;> cases hc)
        · exact hinv
    | paidOp =>
        show cancellationInv (b.mark_paid now)
        intro hne
        have hx : (b.mark_paid now).cancelled_at = b.cancelled_at :=
          (save_cancel_fields _ _).2
        have hs : (b.mark_paid now).status = b.status := save_status _ _
        rw [hx] at hne
        rw [hs]
        exact hinv hne
    | paymentFailedOp =>
        show cancellationInv (b.mark_payment_failed now)
        intro hne
        have hx : (b.mark_payment_failed now).cancelled_at = b.cancelled_at :=
          (save_cancel_fields _ _).2
        have hs : (b.mark_payment_failed now).status = b.status := save_status _ _
        rw [hx] at hne
        rw [hs]
        exact hinv hne
    | refundOp =>
        show cancellationInv (b.mark_refunded now)
        intro hne
        have hx : (b.mark_refunded now).cancelled_at = b.cancelled_at :=
          (save_cancel_fields _ _).2
        have hs : (b.mark_refunded now).status = b.status := save_status _ _
        rw [hx] at hne
        rw [hs]
        exact hinv hne
  · intro trainers db today clientId newId req bc db2 hcr
    obtain ⟨rate, -, -, hbc, -⟩ := create_ok_inv hcr
    rw [hbc]
    exact ⟨(save_cancel_fields _ _).2, (save_cancel_fields _ _).1⟩

/-- Witness for C8: cancelling the confirmed day-10 booking at `now = 0`
(outside the window) sets status, reason and timestamp together. -/
theorem C8_cancellation_write_once_witness :
    (BookingDetailView.destroy bBase Role.client "trip" 0).1.status =
        BStatus.cancelledByClient ∧
      (BookingDetailView.destroy bBase Role.client "trip" 0).1.cancellation_reason =
        "trip" ∧
      (BookingDetailView.destroy bBase Role.client "trip" 0).1.cancelled_at = some 0 :=
  (C8_cancellation_write_once bBase Role.client "trip" 0 LifecycleOp.confirmOp 0).1
    (by decide)

theorem create_conflict_helper {trainers : List TrainerProfile} {db : List Booking}
    {today now clientId newId rate : Nat} {req : BookingRequest}
    (hv : run_validation trainers today req = .ok rate)
    (hbusy : ∃ b ∈ db, matchesSlot req.trainer req.session_date
      req.start_time req.end_time b = true) :
    (create_booking trainers db today now clientId newId req).2 = db ∧
      ∃ c ∈ db, matchesSlot req.trainer req.session_date req.start_time
        req.end_time c = true ∧
        (create_booking trainers db today now clientId newId req).1 =
          .error (.conflict c.start_time c.end_time) := by
  have hsome : (check_booking_conflict db req.trainer req.session_date
      req.start_time req.end_time none).isSome = true := by
    rw [check_isSome_iff]
    exact hbusy
  obtain ⟨c, hcEq⟩ := Option.isSome_iff_exists.mp hsome
  obtain ⟨hmem, hmatch⟩ := check_some_matches hcEq
  unfold create_booking
  rw [hv]
  unfold BookingCreateSerializer.create
  rw [hcEq]
  exact ⟨rfl, c, hmem, hmatch, rfl⟩

/-- C3: on a `create_booking` call that passes validation while a
conflicting active booking exists, the transaction aborts: the table is
unchanged and the result is the conflict error carrying the conflicting
booking's start and end times. -/
theorem C3_conflict_aborts (trainers : List TrainerProfile) (db : List Booking)
    (today now clientId newId rate : Nat) (req : BookingRequest)
    (hv : run_validation trainers today req = .ok rate)
    (hbusy : ∃ b ∈ db, matchesSlot req.trainer req.session_date
      req.start_time req.end_time b = true) :
    (create_booking trainers db today now clientId newId req).2 = db ∧
      ∃ c ∈ db, matchesSlot req.trainer req.session_date req.start_time
        req.end_time c = true ∧
        (create_booking trainers db today now clientId newId req).1 =
          .error (.conflict c.start_time c.end_time) :=
  create_conflict_helper hv hbusy

/-- Witness for C3: booking 10:30-11:30 against the table holding the
confirmed 10:00-11:00 session aborts with the 10:00-11:00 conflict and
leaves the table as it was. -/
theorem C3_conflict_aborts_witness :
    (create_booking exTrainers [bBase] 0 0 2 9 reqOverlap).2 = [bBase] ∧
      ∃ c ∈ [bBase], matchesSlot reqOverlap.trainer reqOverlap.session_date
        reqOverlap.start_time reqOverlap.end_time c = true ∧
        (create_booking exTrainers [bBase] 0 0 2 9 reqOverlap).1 =
          .error (.conflict c.start_time c.end_time) :=
  C3_conflict_aborts exTrainers [bBase] 0 0 2 9 7500 reqOverlap (by rfl)
    ⟨bBase, by simp, by decide⟩

theorem save_fresh_total (newId trN clientId d s e dur : Nat) (addr : String)
    (rate : Nat) (notes : String) (now : Nat) (hr : rate ≠ 0) (hd : dur ≠ 0) :
    ((Booking.mk newId trN clientId d s e dur addr rate none .pending .unpaid
      notes "" "" none now now).save now).total_price =
      some (computeTotalPriceCents rate dur) := by
  rw [save_total_price]
  rw [if_pos]
  simp [priceTruthy, hr, hd]

/-- C4: a successful `create_booking` persists the row with
`status = pending`, `payment_status = unpaid`, the request's duration, and
`total_price` equal to `hourly_rate * duration_minutes / 60` rounded to
the cent; the row is appended to the table.  The hypothesis that the
snapshotted rate is nonzero reflects that the trainer directory only
exposes positive rates (`hourly_rate > 0` is part of the trainer profile
completeness rule). -/
theorem C4_success_fields (trainers : List TrainerProfile) (db : List Booking)
    (today now clientId newId : Nat) (req : BookingRequest) (b : Booking)
    (db2 : List Booking)
    (h : create_booking trainers db today now clientId newId req = (.ok b, db2))
    (hr : b.hourly_rate ≠ 0) :
    b.status = .pending ∧ b.payment_status = .unpaid ∧
      b.duration_minutes = req.duration_minutes ∧
      b.total_price = some (computeTotalPriceCents b.hourly_rate b.duration_minutes) ∧
      db2 = db ++ [b] := by
  obtain ⟨rate, hv, hchk, hb, hdb⟩ := create_ok_inv h
  have hdur : 15 ≤ req.duration_minutes := run_validation_ok_duration hv
  have hrate9 : b.hourly_rate = rate := by
    rw [hb]
    exact (save_core_fields _ _).2.2.2.2.2.2.2.2.1
  have hdur7 : b.duration_minutes = req.duration_minutes := by
    rw [hb]
    exact (save_core_fields _ _).2.2.2.2.2.2.1
  refine ⟨by rw [hb]; exact save_status _ _, by rw [hb]; exact save_payment_status _ _,
    hdur7, ?_, hdb⟩
  rw [hrate9, hdur7, hb]
  exact save_fresh_total newId req.trainer clientId req.session_date req.start_time
    req.end_time req.duration_minutes req.location_address rate req.client_notes now
    (by rw [hrate9] at hr; exact hr) (by omega)

/-- Witness for C4: with rate 75.00 and 60 minutes the created row is
pending, unpaid and priced 75.00; with 30 minutes the price formula gives
37.50. -/
theorem C4_success_fields_witness :
    (bW.status = .pending ∧ bW.payment_status = .unpaid ∧
      bW.duration_minutes = req60.duration_minutes ∧
      bW.total_price = some (computeTotalPriceCents bW.hourly_rate bW.duration_minutes) ∧
      ([bW] : List Booking) = [] ++ [bW]) ∧
      bW.total_price = some 7500 ∧ computeTotalPriceCents 7500 30 = 3750 :=
  ⟨C4_success_fields exTrainers [] 0 5 2 1 req60 bW [bW] (by rfl) (by decide),
    by decide, by decide⟩

/-- C9: `total_price` is set exactly once, at creation, from the
snapshotted `hourly_rate` and `duration_minutes`, and is stable
afterwards: on any row whose `total_price` carries the value creation
computed for it — true of every row the system produces, since the field
is read-only in every serializer — `save` and every exposed lifecycle
operation leave `total_price` unchanged. -/
theorem C9_price_write_once :
    (∀ (trainers : List TrainerProfile) (db : List Booking)
      (today now clientId newId : Nat) (req : BookingRequest) (b : Booking)
      (db2 : List Booking),
      create_booking trainers db today now clientId newId req = (.ok b, db2) →
      b.hourly_rate ≠ 0 →
      b.total_price = some (computeTotalPriceCents b.hourly_rate b.duration_minutes))
    ∧ (∀ (b2 : Booking) (now2 : Nat),
      b2.total_price = some (computeTotalPriceCents b2.hourly_rate b2.duration_minutes) →
      (b2.save now2).total_price = b2.total_price)
    ∧ (∀ (b2 : Booking) (now2 : Nat) (op : LifecycleOp),
      b2.total_price = some (computeTotalPriceCents b2.hourly_rate b2.duration_minutes) →
      (applyOp op b2 now2).total_price = b2.total_price) := by
  refine ⟨?_, ?_, ?_⟩
  · intro trainers db today now clientId newId req b db2 h hr
    obtain ⟨rate, hv, hchk, hb, hdb⟩ := create_ok_inv h
    have hdur : 15 ≤ req.duration_minutes := run_validation_ok_duration hv
    have hrate9 : b.hourly_rate = rate := by
      rw [hb]
      exact (save_core_fields _ _).2.2.2.2.2.2.2.2.1
    have hdur7 : b.duration_minutes = req.duration_minutes := by
      rw [hb]
      exact (save_core_fields _ _).2.2.2.2.2.2.1
    rw [hrate9, hdur7, hb]
    exact save_fresh_total newId req.trainer clientId req.session_date req.start_time
      req.end_time req.duration_minutes req.location_address rate req.client_notes now
      (by rw [hrate9] at hr; exact hr) (by omega)
  · intro b2 now2 hp
    exact save_total_price_stable b2 now2 hp
  · intro b2 now2 op hp
    cases op with
    | confirmOp =>
        show (b2.confirm now2).total_price = b2.total_price
        unfold Booking.confirm
        split
        · exact save_total_price_stable _ _ hp
        · rfl
    | cancelOp role2 reason2 =>
        show ((BookingDetailView.destroy b2 role2 reason2 now2).1).total_price =
          b2.total_price
        by_cases hcc : b2.can_cancel now2 = true
        · rw [destroy_of_can_cancel b2 now2 hcc role2 reason2]
          cases role2 with
          | client =>
              show (b2.cancel "client" reason2 now2).total_price = b2.total_price
              unfold Booking.cancel
              rw [if_pos rfl]
              exact save_total_price_stable _ _ hp
          | trainer =>
              show (b2.cancel "trainer" reason2 now2).total_price = b2.total_price
              unfold Booking.cancel
              rw [if_neg (by decide), if_pos rfl]
              exact save_total_price_stable _ _ hp
        · have hf : b2.can_cancel now2 = false := by
            simpa [Bool.not_eq_true] using hcc
          rw [destroy_of_window b2 now2 hf role2 reason2]
    | completeOp =>
        show (b2.mark_completed now2).total_price = b2.total_price
        unfold Booking.mark_completed
        split
        · exact save_total_price_stable _ _ hp
        · rfl
    | noShowOp =>
        show (b2.mark_no_show now2).total_price = b2.total_price
        unfold Booking.mark_no_show
        split
        · exact save_total_price_stable _ _ hp
        · rfl
    | paidOp =>
        show (b2.mark_paid now2).total_price = b2.total_price
        exact save_total_price_stable _ _ hp
    | paymentFailedOp =>
        show (b2.mark_payment_failed now2).total_price = b2.total_price
        exact save_total_price_stable _ _ hp
    | refundOp =>
        show (b2.mark_refunded now2).total_price = b2.total_price
        exact save_total_price_stable _ _ hp

/-- Witness for C9: saving the 75.00-per-hour, 60-minute row again at a
later time leaves `total_price` at 75.00. -/
theorem C9_price_write_once_witness :
    (bW.save 99).total_price = bW.total_price :=
  C9_price_write_once.2.1 bW 99 (by decide)

/-- Counterexample to C5 as stated: `reqBadDuration` asks for 10:00-11:00
with `duration_minutes = 999`, a 938-minute mismatch, so the spec's
validation clause demands rejection — yet the creation path accepts it
(`run_validation` succeeds), because the duration-consistency check lives
only in `Booking.clean`, which `Booking.objects.create` never invokes. -/
theorem C5_counterexample :
    specValidationRejects exTrainers 0 reqBadDuration ∧
      run_validation exTrainers 0 reqBadDuration = .ok 7500 := by
  constructor
  · right
    right
    left
    decide
  · rfl

/-- C5 amended: `create_booking` rejects, before taking any lock, exactly
the inputs with a past `session_date`, or `start_time >= end_time`, or
`duration_minutes` below the field-level minimum of 15, or a blank or
over-255-character `location_address`, or no published trainer under the
requested id.  The spec's duration-consistency rule (±1 minute) is not
checked on the creation path: it exists only in `Booking.clean`, which
the path never calls. -/
theorem C5_validation_amended (trainers : List TrainerProfile) (today : Nat)
    (req : BookingRequest) :
    (∃ rate, run_validation trainers today req = .ok rate) ↔
      (¬req.session_date < today ∧ req.start_time < req.end_time ∧
        15 ≤ req.duration_minutes ∧
        req.location_address ≠ "" ∧ req.location_address.length ≤ 255 ∧
        ∃ t ∈ trainers, t.id = req.trainer ∧ t.published = true) := by
  unfold run_validation fieldValidation BookingCreateSerializer.validate
  by_cases h1 : req.duration_minutes < 15
  · rw [if_pos h1]
    constructor
    · rintro ⟨rate, hrate⟩
      cases hrate
    · rintro ⟨-, -, hd, -⟩
      omega
  · rw [if_neg h1]
    by_cases h1a : req.location_address = ""
    · rw [if_pos h1a]
      constructor
      · rintro ⟨rate, hrate⟩
        cases hrate
      · rintro ⟨-, -, -, hblank, -⟩
        exact absurd h1a hblank
    · rw [if_neg h1a]
      by_cases h1b : 255 < req.location_address.length
      · rw [if_pos h1b]
        constructor
        · rintro ⟨rate, hrate⟩
          cases hrate
        · rintro ⟨-, -, -, -, hlen, -⟩
          omega
      · rw [if_neg h1b]
        by_cases h2 : req.session_date < today
        · rw [if_pos h2]
          constructor
          · rintro ⟨rate, hrate⟩
            cases hrate
          · rintro ⟨hn, -⟩
            exact absurd h2 hn
        · rw [if_neg h2]
          by_cases h3 : req.end_time ≤ req.start_time
          · rw [if_pos h3]
            constructor
            · rintro ⟨rate, hrate⟩
              cases hrate
            · rintro ⟨-, hlt, -⟩
              omega
          · rw [if_neg h3]
            cases hf : trainers.find?
                (fun t => decide (t.id = req.trainer) && t.published) with
            | none =>
                have hnone : ¬∃ t ∈ trainers,
                    t.id = req.trainer ∧ t.published = true := by
                  rw [List.find?_eq_none] at hf
                  rintro ⟨t, ht, hid, hpub⟩
                  exact absurd (by simp [hid, hpub] :
                    (decide (t.id = req.trainer) && t.published) = true) (hf t ht)
                constructor
                · rintro ⟨rate, hrate⟩
                  cases hrate
                · rintro ⟨-, -, -, -, -, hex⟩
                  exact absurd hex hnone
            | some t =>
                have hsome : ∃ t2 ∈ trainers,
                    t2.id = req.trainer ∧ t2.published = true := by
                  have hmem := List.mem_of_find?_eq_some hf
                  have hp := List.find?_some hf
                  simp only [Bool.and_eq_true, decide_eq_true_eq] at hp
                  exact ⟨t, hmem, hp.1, hp.2⟩
                constructor
                · intro _
                  exact ⟨h2, by omega, by omega, h1a, by omega, hsome⟩
                · intro _
                  exact ⟨t.hourly_rate, rfl⟩

/-- Witness for the amended C5: the well-formed 10:00-11:00 request for
published trainer 1, with a short non-blank address, is accepted. -/
theorem C5_validation_amended_witness :
    ∃ rate, run_validation exTrainers 0 req60 = .ok rate :=
  (C5_validation_amended exTrainers 0 req60).mpr
    ⟨by decide, by decide, by decide, by decide, by decide, exTrainer,
      by simp [exTrainers], by decide, by decide⟩

/-- C1: the claim states the code's documented intent (models.py line 115
"Uses pessimistic locking to prevent race conditions", serializers.py
line 192, and the dedicated concurrency tests), but the code does not
deliver it at the failing input: two concurrent calls for the same free
slot.  With no active booking in the slot, the `select_for_update` read
locks no rows, so under READ COMMITTED both transactions run their
conflict checks before either insert is visible, both find no conflict,
and both commit: two overlapping active rows, no conflict error.  This
theorem evaluates that schedule at the concrete failing input. -/
theorem C1_race_two_winners :
    isOkRes (racedCreatePair exTrainers [] 0 5 2 1 2 req60 reqOverlap).1.1 = true ∧
      isOkRes (racedCreatePair exTrainers [] 0 5 2 1 2 req60 reqOverlap).1.2 = true ∧
      (racedCreatePair exTrainers [] 0 5 2 1 2 req60 reqOverlap).2.countP
        (matchesSlot 1 10 630 690) = 2 := by
  refine ⟨rfl, rfl, by decide⟩

end FitConnect